import Mathlib

/-!
# Verification of the bloxpanel backend core against its specification

This file gives a shallow embedding, in Lean 4, of the core of `src/app.py`
(a Flask backend): the date normalizer `parse_roblox_date`, the two profile
aggregation functions `roblox_lookup` and `get_roblox_user_data`, and the
OAuth `callback` handler with its allow-list check.  Network responses are
modelled by an environment record (one entry per upstream call the code can
make); a `none` entry means the call raised an exception (timeout, connection
error, or a JSON decoding error), and `some` carries the HTTP status and the
decoded JSON body.  Python values flowing through the code are modelled by a
`Json` type; Python exceptions raised by an operation (attribute errors,
key/index errors, type errors in `-`) are modelled by `Option`, with `none`
for "raised".
-/

/-- JSON values / Python objects as they flow through `app.py`. -/
inductive Json where
  | null
  | bool (b : Bool)
  | num (n : Int)
  | str (s : String)
  | arr (xs : List Json)
  | obj (kvs : List (String × Json))

namespace Json

/-- Python truthiness of a value (`if x:`). -/
def truthy : Json → Bool
  | .null => false
  | .bool b => b
  | .num n => n != 0
  | .str s => !s.data.isEmpty
  | .arr xs => !xs.isEmpty
  | .obj kvs => !kvs.isEmpty

/-- `x.get(k)`: returns `Json.null` when the key is missing; raises
(`none`) when the receiver is not a dict. -/
def pyGet : Json → String → Option Json
  | .obj kvs, k => some ((kvs.lookup k).getD .null)
  | _, _ => none

/-- `x.get(k, d)`: returns the default when the key is missing; raises
(`none`) when the receiver is not a dict. -/
def pyGetD : Json → String → Json → Option Json
  | .obj kvs, k, d => some ((kvs.lookup k).getD d)
  | _, _, _ => none

/-- `x[k]` on a dict: raises (`none`) when the key is missing or the
receiver is not a dict. -/
def key : Json → String → Option Json
  | .obj kvs, k => kvs.lookup k
  | _, _ => none

/-- `x[i]` on a list: raises (`none`) when out of range or when the
receiver is not a list (in the code the non-list cases all lead to a raised
exception before any value is produced). -/
def index : Json → Nat → Option Json
  | .arr xs, i => xs.get? i
  | _, _ => none

/-- Python `==` as used by list membership (`in`).  Booleans compare equal
to the corresponding integers; values of other distinct types compare
unequal; same-typed values compare structurally. -/
def pyEq : Json → Json → Bool
  | .null, .null => true
  | .bool a, .bool b => a == b
  | .bool x, .num n => (if x then (1 : Int) else 0) == n
  | .num n, .bool x => n == (if x then (1 : Int) else 0)
  | .num a, .num b => a == b
  | .str a, .str b => a == b
  | .arr xs, .arr ys => go xs ys
  | .obj kxs, .obj kys => goObj kxs kys
  | _, _ => false
where
  go : List Json → List Json → Bool
    | [], [] => true
    | x :: xs, y :: ys => pyEq x y && go xs ys
    | _, _ => false
  goObj : List (String × Json) → List (String × Json) → Bool
    | [], [] => true
    | (k1, v1) :: xs, (k2, v2) :: ys => k1 == k2 && pyEq v1 v2 && goObj xs ys
    | _, _ => false

end Json

/-- One upstream HTTP response: the status code and the decoded JSON body
(`body = none` means `.json()` raised). -/
structure HttpResponse where
  status : Nat
  body : Option Json

/-- `r.raise_for_status()` succeeds exactly when the status is below 400. -/
def raiseForStatusOk (r : HttpResponse) : Bool := r.status < 400

/-- `requests.get(url).json()` with no status check: the call must not have
raised and the body must have decoded. -/
def callJson (r : Option HttpResponse) : Option Json :=
  r.bind (·.body)

/-! ## The Python `datetime` model

`parse_roblox_date` builds `datetime.datetime` values.  We model a datetime
by its calendar fields plus an optional fixed UTC offset in microseconds
(`tz = none` models a naive datetime, as produced by `fromisoformat` on a
string with no zone suffix). -/

/-- Gregorian leap year, as in CPython's `datetime` module. -/
def isLeap (y : Nat) : Bool := y % 4 == 0 && (y % 100 != 0 || y % 400 == 0)

/-- Days in a month, as in CPython's `_days_in_month`. -/
def daysInMonth (y m : Nat) : Nat :=
  if m = 2 then (if isLeap y then 29 else 28)
  else if m = 4 ∨ m = 6 ∨ m = 9 ∨ m = 11 then 30 else 31

/-- Days in the months of year `y` strictly before month `m`
(CPython's `_days_before_month`). -/
def daysBeforeMonth (y m : Nat) : Nat :=
  let base : Nat :=
    match m with
    | 1 => 0 | 2 => 31 | 3 => 59 | 4 => 90 | 5 => 120 | 6 => 151
    | 7 => 181 | 8 => 212 | 9 => 243 | 10 => 273 | 11 => 304 | _ => 334
  base + (if 2 < m ∧ isLeap y then 1 else 0)

/-- Days before January 1st of year `y` counted from year 1
(CPython's `_days_before_year`). -/
def daysBeforeYear (y : Nat) : Nat :=
  let n := y - 1
  n * 365 + n / 4 - n / 100 + n / 400

/-- Proleptic Gregorian ordinal of a date (CPython's `_ymd2ord`). -/
def toOrdinal (y m d : Nat) : Nat := daysBeforeYear y + daysBeforeMonth y m + d

/-- A Python `datetime.datetime`: calendar fields plus an optional fixed
offset from UTC in microseconds (`none` = naive). -/
structure PyDatetime where
  year : Nat
  month : Nat
  day : Nat
  hour : Nat
  minute : Nat
  second : Nat
  microsecond : Nat
  tz : Option Int
deriving DecidableEq

namespace PyDatetime

/-- Local-clock microseconds since the epoch of year 1 (ignoring the
offset). -/
def naiveMicros (dt : PyDatetime) : Int :=
  (((toOrdinal dt.year dt.month dt.day : Int) * 24 + dt.hour) * 3600
    + dt.minute * 60 + dt.second) * 1000000 + dt.microsecond

/-- The instant (microseconds since the year-1 epoch, in UTC) denoted by an
aware datetime; `none` for a naive one. -/
def instant? (dt : PyDatetime) : Option Int :=
  dt.tz.map (fun off => dt.naiveMicros - off)

/-- Field validity as enforced by the `datetime` constructor. -/
def valid (dt : PyDatetime) : Bool :=
  1 ≤ dt.year && dt.year ≤ 9999 && 1 ≤ dt.month && dt.month ≤ 12 &&
  1 ≤ dt.day && dt.day ≤ daysInMonth dt.year dt.month &&
  dt.hour ≤ 23 && dt.minute ≤ 59 && dt.second ≤ 59 && dt.microsecond ≤ 999999

end PyDatetime

/-- `timezone(timedelta)` accepts an offset strictly within 24 hours. -/
def tzOk : Option Int → Bool
  | none => true
  | some off => -86400000000 < off && off < 86400000000

/-- The `datetime(...)` constructor: validates the fields and, for an aware
value, that the offset is strictly within 24 hours (as `timezone` does);
raises (`none`) otherwise. -/
def mkDatetime? (y mo d h mi s us : Nat) (tz : Option Int) : Option PyDatetime :=
  if (PyDatetime.valid ⟨y, mo, d, h, mi, s, us, tz⟩ && tzOk tz) = true then
    some ⟨y, mo, d, h, mi, s, us, tz⟩
  else none

/-- Python `a - b` on datetimes, in microseconds: defined for two aware (or
two naive) operands; mixing aware and naive raises (`none`). -/
def pySub (a b : PyDatetime) : Option Int :=
  match a.tz, b.tz with
  | some offa, some offb => some ((a.naiveMicros - offa) - (b.naiveMicros - offb))
  | none, none => some (a.naiveMicros - b.naiveMicros)
  | _, _ => none

/-- `timedelta.days` of a microsecond difference: floor division by the
number of microseconds in a day. -/
def tdDays (diff : Int) : Int := Int.fdiv diff 86400000000

/-! ## String parsing helpers for `parse_roblox_date` -/

/-- Value of an ASCII digit character, `none` for a non-digit. -/
def digitVal (c : Char) : Option Nat :=
  if c.isDigit then some (c.toNat - 48) else none

/-- `int(s)` on a run of characters, strict: every character must be an
ASCII digit. -/
def digitsToNat (cs : List Char) : Option Nat :=
  cs.foldl (fun acc c => do
    let a ← acc
    let d ← digitVal c
    pure (a * 10 + d)) (some 0)

/-- Consume one expected literal character. -/
def expectChar (c : Char) : List Char → Option (List Char)
  | x :: rest => if x = c then some rest else none
  | [] => none

/-- Exactly two digits (`int(tstr[pos:pos+2])` in CPython's isoformat
helper). -/
def take2num : List Char → Option (Nat × List Char)
  | a :: b :: rest => do
      let da ← digitVal a
      let db ← digitVal b
      pure (da * 10 + db, rest)
  | _ => none

/-- Exactly four digits (the `%Y` regex `\d\d\d\d` of `_strptime`). -/
def take4num : List Char → Option (Nat × List Char)
  | a :: b :: c :: d :: rest => do
      let da ← digitVal a
      let db ← digitVal b
      let dc ← digitVal c
      let dd ← digitVal d
      pure (((da * 10 + db) * 10 + dc) * 10 + dd, rest)
  | _ => none

/-- A 1-or-2-digit `_strptime` field whose regex constrains the admissible
2-digit values by `ok2` and the admissible 1-digit values by `ok1`.  In the
format used by the code every such field is followed by a non-digit literal,
so regex backtracking makes a 2-digit prefix mandatory whenever two digits
are present. -/
def takeField (ok2 ok1 : Nat → Bool) : List Char → Option (Nat × List Char)
  | a :: b :: rest =>
      match digitVal a, digitVal b with
      | some da, some db =>
          let v := da * 10 + db
          if ok2 v then some (v, rest) else none
      | some da, none => if ok1 da then some (da, b :: rest) else none
      | none, _ => none
  | [a] =>
      match digitVal a with
      | some da => if ok1 da then some (da, []) else none
      | none => none
  | [] => none

/-- `datetime.strptime(s, "%Y-%m-%dT%H:%M:%S.%fZ")`, the first parse
attempted by `parse_roblox_date` (result still naive). -/
def strptime_robloxZ (s : String) : Option PyDatetime := do
  let cs := s.data
  let (y, cs) ← take4num cs
  let cs ← expectChar '-' cs
  let (mo, cs) ← takeField (fun v => 1 ≤ v && v ≤ 12) (fun v => 1 ≤ v) cs
  let cs ← expectChar '-' cs
  let (d, cs) ← takeField (fun v => 1 ≤ v && v ≤ 31) (fun v => 1 ≤ v) cs
  let cs ← expectChar 'T' cs
  let (h, cs) ← takeField (fun v => v ≤ 23) (fun _ => true) cs
  let cs ← expectChar ':' cs
  let (mi, cs) ← takeField (fun v => v ≤ 59) (fun _ => true) cs
  let cs ← expectChar ':' cs
  let (sec, cs) ← takeField (fun v => v ≤ 61) (fun _ => true) cs
  let cs ← expectChar '.' cs
  let frac := cs.takeWhile Char.isDigit
  let rest := cs.dropWhile Char.isDigit
  if 1 ≤ frac.length && frac.length ≤ 6 && rest = ['Z'] then do
    let f ← digitsToNat frac
    mkDatetime? y mo d h mi sec (f * 10 ^ (6 - frac.length)) none
  else none

/-- CPython's `_parse_hh_mm_ss_ff`: `HH[:MM[:SS[.fff[fff]]]]` with strict
two-digit components and a 3- or 6-digit fraction; returns
`(hh, mm, ss, microseconds)`. -/
def parse_hh_mm_ss_ff (cs : List Char) : Option (Nat × Nat × Nat × Nat) := do
  let (hh, rest) ← take2num cs
  match rest with
  | [] => pure (hh, 0, 0, 0)
  | ':' :: r1 => do
      let (mm, rest1) ← take2num r1
      match rest1 with
      | [] => pure (hh, mm, 0, 0)
      | ':' :: r2 => do
          let (ss, rest2) ← take2num r2
          match rest2 with
          | [] => pure (hh, mm, ss, 0)
          | '.' :: fr =>
              if fr.length = 3 then do
                let v ← digitsToNat fr
                pure (hh, mm, ss, v * 1000)
              else if fr.length = 6 then do
                let v ← digitsToNat fr
                pure (hh, mm, ss, v)
              else none
          | _ => none
      | _ => none
  | _ => none

/-- Index of the first occurrence of a character (`str.find`). -/
def findIdx? (c : Char) : List Char → Option Nat
  | [] => none
  | x :: xs => if x = c then some 0 else (findIdx? c xs).map (· + 1)

/-- CPython's `_parse_isoformat_time`: time components plus an optional
zone offset in microseconds.  The offset part, introduced by the first `-`
(else the first `+`), must be `HH:MM`, `HH:MM:SS` or `HH:MM:SS.ffffff`. -/
def parse_isoformat_time (cs : List Char) :
    Option ((Nat × Nat × Nat × Nat) × Option Int) := do
  if cs.length < 2 then none
  else
    let tzIdx : Option Nat :=
      match findIdx? '-' cs with
      | some i => some i
      | none => findIdx? '+' cs
    match tzIdx with
    | none => do
        let t ← parse_hh_mm_ss_ff cs
        pure (t, none)
    | some i => do
        let t ← parse_hh_mm_ss_ff (cs.take i)
        let tzstr := cs.drop (i + 1)
        if tzstr.length = 5 || tzstr.length = 8 || tzstr.length = 15 then do
          let (th, tm, ts, tus) ← parse_hh_mm_ss_ff tzstr
          let sign : Int := if cs.get? i = some '-' then -1 else 1
          pure (t, some (sign * (((th * 3600 + tm * 60 + ts : Nat) : Int) * 1000000 + tus)))
        else none

/-- CPython's (pre-3.11) `datetime.fromisoformat`: a strict `YYYY-MM-DD`
date, an arbitrary separator character, and an optional time with optional
zone offset. -/
def fromisoformat? (s : String) : Option PyDatetime :=
  match s.data with
  | y1 :: y2 :: y3 :: y4 :: '-' :: m1 :: m2 :: '-' :: d1 :: d2 :: rest => do
      let y ← digitsToNat [y1, y2, y3, y4]
      let mo ← digitsToNat [m1, m2]
      let d ← digitsToNat [d1, d2]
      match rest with
      | [] => mkDatetime? y mo d 0 0 0 0 none
      | _sep :: timecs => do
          let ((h, mi, sec, us), tz) ← parse_isoformat_time timecs
          mkDatetime? y mo d h mi sec us tz
  | _ => none

/-- `date_str.replace("Z", "+00:00")` specialised to the literal pattern
`"Z"` used by the code. -/
def replaceZ : List Char → List Char
  | [] => []
  | c :: rest =>
      if c = 'Z' then '+' :: '0' :: '0' :: ':' :: '0' :: '0' :: replaceZ rest
      else c :: replaceZ rest

/-- `parse_roblox_date` (src/app.py lines 29-45): falsy input gives `None`;
otherwise try `strptime` with the fixed `...%S.%fZ` format and mark the
result UTC; otherwise try `fromisoformat` after replacing `Z` by `+00:00`;
any failure (including the type errors raised on non-string truthy input,
caught by the two bare `except Exception` clauses) gives `None`. -/
def parse_roblox_date (j : Json) : Option PyDatetime :=
  if j.truthy = false then none
  else
    match j with
    | .str s =>
        match strptime_robloxZ s with
        | some dt => some { dt with tz := some 0 }
        | none => fromisoformat? (String.mk (replaceZ s.data))
    | _ => none

/-! ## Encodings of an instant (spec §4.1, for the round-trip property)

The two encodings named by the spec: the fixed-width
fractional-seconds-with-`Z` form (`%Y-%m-%dT%H:%M:%S.%fZ`, as `strftime`
renders it), and extended ISO-8601 with a numeric zone offset (as
`datetime.isoformat` renders an aware datetime, with the fraction always
written out). -/

/-- The ASCII character of a digit. -/
def digitChar (d : Nat) : Char := Char.ofNat (48 + d)

/-- Zero-padded two-digit rendering. -/
def pad2 (n : Nat) : List Char := [digitChar (n / 10 % 10), digitChar (n % 10)]

/-- Zero-padded four-digit rendering. -/
def pad4 (n : Nat) : List Char :=
  [digitChar (n / 1000 % 10), digitChar (n / 100 % 10),
   digitChar (n / 10 % 10), digitChar (n % 10)]

/-- Zero-padded six-digit rendering. -/
def pad6 (n : Nat) : List Char :=
  [digitChar (n / 100000 % 10), digitChar (n / 10000 % 10),
   digitChar (n / 1000 % 10), digitChar (n / 100 % 10),
   digitChar (n / 10 % 10), digitChar (n % 10)]

/-- Encoding 1: `strftime("%Y-%m-%dT%H:%M:%S.%fZ")` of a UTC instant. -/
def fmtFracZ (dt : PyDatetime) : String :=
  String.mk (pad4 dt.year ++ '-' :: pad2 dt.month ++ '-' :: pad2 dt.day ++
    'T' :: pad2 dt.hour ++ ':' :: pad2 dt.minute ++ ':' :: pad2 dt.second ++
    '.' :: pad6 dt.microsecond ++ ['Z'])

/-- Encoding 2: extended ISO-8601 of an aware datetime with a whole-minute
offset, fraction written in full, offset rendered `±HH:MM`. -/
def fmtIsoOffset (dt : PyDatetime) : String :=
  let off := dt.tz.getD 0
  let mins := off.natAbs / 60000000
  String.mk (pad4 dt.year ++ '-' :: pad2 dt.month ++ '-' :: pad2 dt.day ++
    'T' :: pad2 dt.hour ++ ':' :: pad2 dt.minute ++ ':' :: pad2 dt.second ++
    '.' :: pad6 dt.microsecond ++
    (if 0 ≤ off then '+' else '-') :: pad2 (mins / 60) ++ ':' :: pad2 (mins % 60))

/-! ## The profile lookup of the `/roblox` route (`roblox_lookup`, lines 208-279)

The environment carries one entry per upstream call the handler can make;
the result is paired with the trace of upstream calls actually issued. -/

/-- The upstream calls the two lookup functions can make. -/
inductive UpCall where
  | resolveUsername
  | fetchProfile
  | fetchFriends
  | fetchHeadshot
  | fetchBust
  | fetchAvatar
deriving DecidableEq, Repr

/-- Upstream world as seen by one `roblox_lookup` request. -/
structure RLEnv where
  resolveResp : Option HttpResponse
  profileResp : Option HttpResponse
  friendsResp : Option HttpResponse
  headshotResp : Option HttpResponse
  bustResp : Option HttpResponse

/-- Outcome of the `/roblox` POST handler: the 400 missing-username reply,
the 404 `User not found` reply, or the JSON record; an unhandled exception
(Flask 500) is the `none` of the surrounding `Option`. -/
inductive RLOutcome where
  | badRequest
  | notFound
  | record (r : List (String × Json))

/-- Step 1 of `roblox_lookup` (lines 215-226): resolve the username.
`exn` models a raised exception, `notFound` the 404 reply, `ok` carries
`res.json()["data"][0]`. -/
inductive ResolveStep where
  | exn
  | notFound
  | ok (user : Json)

/-- `roblox_lookup` lines 215-226: non-200 or a falsy `data` field is 404;
a raised request / JSON / attribute / index error propagates. -/
def resolveStep (r : Option HttpResponse) : ResolveStep :=
  match r with
  | none => .exn
  | some res =>
      if res.status ≠ 200 then .notFound
      else
        match res.body with
        | none => .exn
        | some body =>
            match body.pyGet "data" with
            | none => .exn
            | some dataJ =>
                if dataJ.truthy = false then .notFound
                else
                  match dataJ.index 0 with
                  | none => .exn
                  | some user => .ok user

/-- Account-age field (lines 232-238 with sentinel `"N/A"`, lines 321-326
with sentinel `"-"`): an unparseable or absent creation date gives the
sentinel; otherwise `(now - created_date).days`, which raises (`none`)
when the parsed datetime is naive. -/
def accountAgeField (now : PyDatetime) (sentinel : String) (created : Json) :
    Option Json :=
  match parse_roblox_date created with
  | none => some (.str sentinel)
  | some d => (pySub now d).map (fun diff => .num (tdDays diff))

/-- Lines 228-238: `requests.get(...).json()` for the account info, then
`acc_info.get("created")` and the age computation. -/
def profileAgeStep (r : Option HttpResponse) (now : PyDatetime) : Option Json := do
  let acc ← callJson r
  let created ← acc.pyGet "created"
  accountAgeField now "N/A" created

/-- Lines 240-244: `requests.get(...).json().get("count", "N/A")`. -/
def friendsStep (r : Option HttpResponse) : Option Json := do
  let j ← callJson r
  j.pyGetD "count" (.str "N/A")

/-- Lines 258-262: `if thumb.get("data"): url = thumb["data"][0].get("imageUrl")`,
with `avatar_url` previously initialised to `None`. -/
def thumbUrl (j : Json) : Option Json := do
  let d ← j.pyGet "data"
  if d.truthy then do
    let first ← d.index 0
    first.pyGet "imageUrl"
  else pure .null

/-- The record literal of lines 264-277. -/
def rlRecord (name accountAge friends avatarUrl avatarBustUrl : Json) :
    List (String × Json) :=
  [("name", name), ("accountAge", accountAge), ("friends", friends),
   ("followers", .str "N/A"), ("following", .str "N/A"),
   ("voiceChat", .str "Not Eligible"), ("safeChat", .str "Disabled"),
   ("language", .str "en-us"), ("avatarUrl", avatarUrl),
   ("avatarBustUrl", avatarBustUrl)]

/-- `roblox_lookup` (POST branch, lines 210-277), paired with the trace of
upstream calls issued.  There is no `try` in this handler: any raised
exception aborts the request (`none`, a Flask 500). -/
def roblox_lookup (username : String) (env : RLEnv) (now : PyDatetime) :
    Option RLOutcome × List UpCall :=
  if username.data.isEmpty then (some .badRequest, [])
  else
    match resolveStep env.resolveResp with
    | .exn => (none, [.resolveUsername])
    | .notFound => (some .notFound, [.resolveUsername])
    | .ok user =>
        match user.key "id" with
        | none => (none, [.resolveUsername])
        | some _uid =>
            match profileAgeStep env.profileResp now with
            | none => (none, [.resolveUsername, .fetchProfile])
            | some age =>
                match friendsStep env.friendsResp with
                | none => (none, [.resolveUsername, .fetchProfile, .fetchFriends])
                | some friends =>
                    match callJson env.headshotResp with
                    | none => (none, [.resolveUsername, .fetchProfile,
                        .fetchFriends, .fetchHeadshot])
                    | some hs =>
                        match callJson env.bustResp with
                        | none => (none, [.resolveUsername, .fetchProfile,
                            .fetchFriends, .fetchHeadshot, .fetchBust])
                        | some bs =>
                            match thumbUrl hs, thumbUrl bs, user.key "name" with
                            | some av, some avb, some nm =>
                                (some (.record (rlRecord nm age friends av avb)),
                                 [.resolveUsername, .fetchProfile, .fetchFriends,
                                  .fetchHeadshot, .fetchBust])
                            | _, _, _ =>
                                (none, [.resolveUsername, .fetchProfile,
                                 .fetchFriends, .fetchHeadshot, .fetchBust])

/-! ## The profile aggregation helper `get_roblox_user_data` (lines 287-346)

The whole body is wrapped in `try ... except Exception: return None`, so
every raised exception becomes `None`; every explicit failure branch also
returns `None`. -/

/-- Upstream world as seen by one `get_roblox_user_data` call. -/
structure GUDEnv where
  resolveResp : Option HttpResponse
  profileResp : Option HttpResponse
  avatarResp : Option HttpResponse

/-- Lines 289-304: resolve the username to `data["data"][0]`; every failure
(raised request, non-200, undecodable body, falsy `data`, bad index) is
`None`. -/
def gudResolve (r : Option HttpResponse) : Option Json := do
  let res ← r
  if res.status ≠ 200 then none
  else do
    let data ← res.body
    let dataJ ← data.pyGet "data"
    if dataJ.truthy = false then none
    else dataJ.index 0

/-- Lines 316-319: `avatar_url = ""`, then
`if thumbnail_data.get("data") and len(thumbnail_data["data"]) > 0:`
`avatar_url = thumbnail_data["data"][0].get("imageUrl", "")`.  A truthy
non-list `data` value leads to a raised exception (`len` or the `[0]` /
`.get` on its element). -/
def gudAvatar (j : Json) : Option Json := do
  let d ← j.pyGet "data"
  match d with
  | .arr (x :: _) => x.pyGetD "imageUrl" (.str "")
  | .arr [] => pure (.str "")
  | _ => if d.truthy then none else pure (.str "")

/-- The key set of the record literal of lines 328-342. -/
def gudKeys : List String :=
  ["username", "display_name", "id", "created", "accountAge", "description",
   "avatarBustUrl", "friends", "followers", "following", "voiceChat",
   "safeChat", "language"]

/-- The record literal of lines 328-342. -/
def gudRecord (kvs : List (String × Json)) (uid avatar created age : Json) :
    List (String × Json) :=
  [("username", (kvs.lookup "name").getD .null),
   ("display_name", (kvs.lookup "displayName").getD .null),
   ("id", uid), ("created", created), ("accountAge", age),
   ("description", (kvs.lookup "description").getD .null),
   ("avatarBustUrl", avatar),
   ("friends", .str "No active Logic"), ("followers", .str "No active Logic"),
   ("following", .str "No active Logic"), ("voiceChat", .str "No active Logic"),
   ("safeChat", .str "No active Logic"), ("language", .str "No active Logic")]

/-- `get_roblox_user_data` (lines 287-346), paired with the trace of
upstream calls issued. -/
def get_roblox_user_data (env : GUDEnv) (now : PyDatetime) :
    Option (List (String × Json)) × List UpCall :=
  match gudResolve env.resolveResp with
  | none => (none, [.resolveUsername])
  | some user =>
      match user.key "id" with
      | none => (none, [.resolveUsername])
      | some uid =>
          match env.profileResp with
          | none => (none, [.resolveUsername, .fetchProfile])
          | some pr =>
              if pr.status ≠ 200 then (none, [.resolveUsername, .fetchProfile])
              else
                match pr.body with
                | none => (none, [.resolveUsername, .fetchProfile])
                | some profile =>
                    match callJson env.avatarResp with
                    | none => (none, [.resolveUsername, .fetchProfile, .fetchAvatar])
                    | some tj =>
                        match gudAvatar tj with
                        | none => (none, [.resolveUsername, .fetchProfile, .fetchAvatar])
                        | some avatar =>
                            match profile with
                            | .obj kvs =>
                                let created := (kvs.lookup "created").getD .null
                                match accountAgeField now "-" created with
                                | none =>
                                    (none, [.resolveUsername, .fetchProfile, .fetchAvatar])
                                | some age =>
                                    (some (gudRecord kvs uid avatar created age),
                                     [.resolveUsername, .fetchProfile, .fetchAvatar])
                            | _ =>
                                (none, [.resolveUsername, .fetchProfile, .fetchAvatar])

/-! ## The OAuth callback and its allow-list gate (lines 94-168)

The session is threaded explicitly: the handler receives the session state
before the request and returns the state after it. -/

/-- Upstream world as seen by one `/callback` request. -/
structure CallbackEnv where
  tokenResp : Option HttpResponse
  userResp : Option HttpResponse
  allowFile : Option Json
  webhookOk : Bool

/-- The distinct replies of the `/callback` handler. -/
inductive CallbackOutcome where
  | missingCode
  | tokenExchangeFailed
  | noAccessToken
  | userFetchFailed
  | serverError
  | accessDenied
  | loginRedirect (token : Json)

/-- The three-valued allow-list decision of lines 146-157. -/
inductive AuthDecision where
  | allowed
  | denied
  | error
deriving DecidableEq

/-- Python `item in container` as used on the allow-list: list membership
by `==`; substring test when both are strings; raises (`none`) on a
non-container. -/
def pyIn (item container : Json) : Option Bool :=
  match container with
  | .arr xs => some (xs.any (Json.pyEq item))
  | .str s =>
      match item with
      | .str sub => some (((s.splitOn sub).length != 1) || sub.data.isEmpty)
      | _ => none
  | .obj kvs =>
      match item with
      | .str k => some ((kvs.lookup k).isSome)
      | .arr _ => none
      | .obj _ => none
      | _ => some false
  | _ => none

/-- Lines 146-157: re-read `allowed_users.json`, take
`.get("allowedUsers", [])`, and test membership of the user id.  The
argument is the parsed content of the file at the moment of this check
(`none` when opening or decoding it raised); any raised exception is the
500 `Server error` reply. -/
def authorize (allowFile : Option Json) (userId : Json) : AuthDecision :=
  match allowFile with
  | none => .error
  | some content =>
      match content.pyGetD "allowedUsers" (.arr []) with
      | none => .error
      | some lst =>
          match pyIn userId lst with
          | none => .error
          | some true => .allowed
          | some false => .denied

/-- Lines 116-128: POST the code exchange, `raise_for_status`, decode, and
take `.get("access_token")`; any raised exception is the
`Token exchange failed` reply (`none` here). -/
def tokenStep (r : Option HttpResponse) : Option Json := do
  let res ← r
  if raiseForStatusOk res = false then none
  else do
    let j ← res.body
    j.pyGet "access_token"

/-- Lines 131-141: GET `/users/@me` with the bearer token,
`raise_for_status`, decode; any raised exception is the
`Failed to fetch user info` reply (`none` here). -/
def userStep (r : Option HttpResponse) : Option Json := do
  let res ← r
  if raiseForStatusOk res = false then none
  else res.body

/-- The `/callback` handler (lines 94-168).  Returns the reply (the `none`
of the outer `Option` is an unhandled exception, i.e. a Flask 500) and the
session state after the request.  Note line 143: the fetched identity is
stored in the session before the allow-list check runs. -/
def callback (code : Option String) (env : CallbackEnv) (session0 : Option Json) :
    Option CallbackOutcome × Option Json :=
  match code with
  | none => (some .missingCode, session0)
  | some c =>
      if c.data.isEmpty then (some .missingCode, session0)
      else
        match tokenStep env.tokenResp with
        | none => (some .tokenExchangeFailed, session0)
        | some tok =>
            if tok.truthy = false then (some .noAccessToken, session0)
            else
              match userStep env.userResp with
              | none => (some .userFetchFailed, session0)
              | some user =>
                  let session1 := some user
                  match user.pyGet "id" with
                  | none => (none, session1)
                  | some uid =>
                      match authorize env.allowFile uid with
                      | .error => (some .serverError, session1)
                      | .denied => (some .accessDenied, session1)
                      | .allowed => (some (.loginRedirect tok), session1)

/-! ## Theorems: the allow-list gate and the callback state machine -/

/-- When the allow-list file holds a list, `authorize` is exactly the
membership test on that list. -/
theorem authorize_eq_membership (content uid : Json) (l : List Json)
    (h : content.pyGetD "allowedUsers" (.arr []) = some (.arr l)) :
    authorize (some content) uid =
      (if l.any (Json.pyEq uid) = true then .allowed else .denied) := by
  simp only [authorize, h, pyIn]
  by_cases hm : l.any (Json.pyEq uid) = true
  · simp [hm]
  · simp [hm]

/-- C2: for every identity and every state of the allow-list file at the
moment of the check, `authorize` denies an identity whose id is absent from
the allow-list and allows one whose id is present; the list is re-read from
its external store on every check, so the outcomes of two calls are each
determined solely by the file content passed to that call — no caching. -/
theorem C2_authorize_membership_no_caching
    (c1 c2 uid : Json) (l1 l2 : List Json)
    (h1 : c1.pyGetD "allowedUsers" (.arr []) = some (.arr l1))
    (h2 : c2.pyGetD "allowedUsers" (.arr []) = some (.arr l2)) :
    (authorize (some c1) uid = .allowed ↔ l1.any (Json.pyEq uid) = true)
    ∧ (authorize (some c1) uid = .denied ↔ l1.any (Json.pyEq uid) = false)
    ∧ (authorize (some c2) uid = .allowed ↔ l2.any (Json.pyEq uid) = true)
    ∧ (authorize (some c2) uid = .denied ↔ l2.any (Json.pyEq uid) = false) := by
  rw [authorize_eq_membership c1 uid l1 h1, authorize_eq_membership c2 uid l2 h2]
  by_cases m1 : l1.any (Json.pyEq uid) = true <;>
    by_cases m2 : l2.any (Json.pyEq uid) = true <;>
      simp [m1, m2, Bool.not_eq_true]

/-- Witness for C2: with id `"42"`, a file whose list holds `"42"` allows,
and — on a later call with a changed file — a file whose list is empty
denies. -/
theorem C2_witness :
    authorize (some (.obj [("allowedUsers", .arr [.str "42"])])) (.str "42")
        = .allowed
    ∧ authorize (some (.obj [("allowedUsers", .arr [])])) (.str "42")
        = .denied := by
  have h := C2_authorize_membership_no_caching
    (.obj [("allowedUsers", .arr [.str "42"])])
    (.obj [("allowedUsers", .arr [])]) (.str "42")
    [.str "42"] [] rfl rfl
  exact ⟨h.1.mpr (by decide), h.2.2.2.mpr (by decide)⟩

/-- A callback environment whose token exchange replies 400. -/
def envTokenFail : CallbackEnv :=
  { tokenResp := some ⟨400, some (.obj [])⟩,
    userResp := some ⟨200, some (.obj [])⟩,
    allowFile := some (.obj []), webhookOk := true }

/-- A callback environment in which the exchange and the identity fetch
succeed but the fetched id `"99"` is not in the allow-list `["42"]`. -/
def envDenied : CallbackEnv :=
  { tokenResp := some ⟨200, some (.obj [("access_token", .str "tok")])⟩,
    userResp := some ⟨200, some (.obj [("id", .str "99")])⟩,
    allowFile := some (.obj [("allowedUsers", .arr [.str "42"])]),
    webhookOk := true }

/-- C3: for every authentication attempt whose code fails the token
exchange, or whose token response carries no (truthy) access token, the
callback terminates in the corresponding auth-exchange failure reply and
the session store is left unchanged — no identity is stored. -/
theorem C3_exchange_failure_stores_nothing
    (c : String) (hc : c.data.isEmpty = false)
    (env : CallbackEnv) (s0 : Option Json) :
    (tokenStep env.tokenResp = none →
      callback (some c) env s0 = (some .tokenExchangeFailed, s0))
    ∧ (∀ tok, tokenStep env.tokenResp = some tok → tok.truthy = false →
      callback (some c) env s0 = (some .noAccessToken, s0)) := by
  constructor
  · intro h
    simp [callback, hc, h]
  · intro tok h htok
    simp [callback, hc, h, htok]

/-- Witness for C3 at a concrete failing exchange. -/
theorem C3_witness :
    callback (some "abc") envTokenFail none
      = (some .tokenExchangeFailed, none) :=
  (C3_exchange_failure_stores_nothing "abc" rfl envTokenFail none).1 rfl

/-- C5: when the token exchange and the identity fetch succeed but the
resolved id is not in the allow-list, the callback ends in the
access-denied reply, an outcome distinct from the token-exchange failure
reply. -/
theorem C5_denied_distinct_from_exchange_failure
    (c : String) (hc : c.data.isEmpty = false)
    (env : CallbackEnv) (s0 : Option Json)
    (tok user uid content : Json) (l : List Json)
    (ht : tokenStep env.tokenResp = some tok) (htt : tok.truthy = true)
    (hu : userStep env.userResp = some user)
    (hid : user.pyGet "id" = some uid)
    (hf : env.allowFile = some content)
    (hl : content.pyGetD "allowedUsers" (.arr []) = some (.arr l))
    (hmem : l.any (Json.pyEq uid) = false) :
    (callback (some c) env s0).1 = some .accessDenied
    ∧ CallbackOutcome.accessDenied ≠ CallbackOutcome.tokenExchangeFailed := by
  have hauth : authorize env.allowFile uid = .denied := by
    rw [hf, authorize_eq_membership content uid l hl, hmem]
    simp
  refine ⟨?_, fun h => CallbackOutcome.noConfusion h⟩
  simp [callback, hc, ht, htt, hu, hid, hauth]

/-- Witness for C5 at a concrete denied identity. -/
theorem C5_witness :
    (callback (some "abc") envDenied none).1 = some .accessDenied :=
  (C5_denied_distinct_from_exchange_failure "abc" rfl envDenied none
    (.str "tok") (.obj [("id", .str "99")]) (.str "99")
    (.obj [("allowedUsers", .arr [.str "42"])]) [.str "42"]
    rfl rfl rfl rfl rfl rfl (by decide)).1

/-- C10: whenever the token exchange and the identity fetch both succeed,
the resolved identity is stored in the session before the allow-list check
runs, so the session holds that identity after the request whatever the
allow-list check produced (denied, read failure, or success). -/
theorem C10_identity_stored_before_gate
    (c : String) (hc : c.data.isEmpty = false)
    (env : CallbackEnv) (s0 : Option Json) (tok user : Json)
    (ht : tokenStep env.tokenResp = some tok) (htt : tok.truthy = true)
    (hu : userStep env.userResp = some user) :
    (callback (some c) env s0).2 = some user := by
  simp only [callback, hc, Bool.false_eq_true, if_false, ht, htt]
  simp only [Bool.true_eq_false, if_false, hu]
  cases hg : user.pyGet "id" with
  | none => simp
  | some uid =>
      simp only [Option.some.injEq]
      split <;> rfl

/-- Witness for C10: an identity denied by the allow-list is nevertheless
retained in the session. -/
theorem C10_witness :
    (callback (some "abc") envDenied none).2 = some (.obj [("id", .str "99")]) :=
  C10_identity_stored_before_gate "abc" rfl envDenied none
    (.str "tok") (.obj [("id", .str "99")]) rfl rfl rfl

/-! ## Theorems: the profile lookups -/

/-- A resolution failure in the sense of the spec: a non-200 reply, or a
decoded body whose `data` field is falsy (absent or an empty result set). -/
def resolutionFailed (r : HttpResponse) : Prop :=
  r.status ≠ 200 ∨ ∃ b dj, r.body = some b ∧ b.pyGet "data" = some dj ∧ dj.truthy = false

/-- Floor division of a non-negative difference by the microseconds of a
day is non-negative. -/
theorem tdDays_nonneg (diff : Int) (h : 0 ≤ diff) : 0 ≤ tdDays diff :=
  Int.fdiv_nonneg h (by omega)

/-- Under a resolution failure, step 1 of `roblox_lookup` is the 404
branch. -/
theorem resolveStep_notFound (r : HttpResponse) (hfail : resolutionFailed r) :
    resolveStep (some r) = .notFound := by
  by_cases hs : r.status = 200
  · rcases hfail with h | ⟨b, dj, hb, hdj, ht⟩
    · exact absurd hs h
    · simp [resolveStep, hs, hb, hdj, ht]
  · simp [resolveStep, hs]

/-- Under a resolution failure, the resolve phase of
`get_roblox_user_data` returns `None`. -/
theorem gudResolve_fail (r : HttpResponse) (hfail : resolutionFailed r) :
    gudResolve (some r) = none := by
  by_cases hs : r.status = 200
  · rcases hfail with h | ⟨b, dj, hb, hdj, ht⟩
    · exact absurd hs h
    · simp [gudResolve, hs, hb, hdj, ht]
  · simp [gudResolve, hs]

/-- C4: when username resolution fails (non-200 or empty result set), both
lookup entry points report not-found immediately — `roblox_lookup` replies
404 and `get_roblox_user_data` returns `None` — and the trace shows no
upstream call beyond the resolution call itself. -/
theorem C4_notfound_no_further_calls
    (env : RLEnv) (genv : GUDEnv) (now : PyDatetime)
    (username : String) (hn : username.data.isEmpty = false)
    (r : HttpResponse) (hr : env.resolveResp = some r)
    (hfail : resolutionFailed r)
    (g : HttpResponse) (hg : genv.resolveResp = some g)
    (gfail : resolutionFailed g) :
    roblox_lookup username env now = (some .notFound, [.resolveUsername])
    ∧ get_roblox_user_data genv now = (none, [.resolveUsername]) := by
  constructor
  · have h1 : resolveStep env.resolveResp = .notFound := by
      rw [hr]; exact resolveStep_notFound r hfail
    simp [roblox_lookup, hn, h1]
  · have h2 : gudResolve genv.resolveResp = none := by
      rw [hg]; exact gudResolve_fail g gfail
    simp [get_roblox_user_data, h2]

/-- Environment for the 404 witness of `roblox_lookup`: the resolution
endpoint replies 500. -/
def rlEnvNotFound : RLEnv :=
  { resolveResp := some ⟨500, some (.obj [])⟩, profileResp := none,
    friendsResp := none, headshotResp := none, bustResp := none }

/-- Environment for the not-found witness of `get_roblox_user_data`: the
resolution endpoint replies 200 with an empty result set. -/
def gudEnvNotFound : GUDEnv :=
  { resolveResp := some ⟨200, some (.obj [("data", .arr [])])⟩,
    profileResp := none, avatarResp := none }

/-- A fixed aware "now" used by concrete scenarios. -/
def now0 : PyDatetime := ⟨2024, 1, 1, 0, 0, 0, 0, some 0⟩

/-- Witness for C4: a 500 resolution reply and a 200-but-empty result set
both stop after the resolution call. -/
theorem C4_witness :
    roblox_lookup "SomeUser" rlEnvNotFound now0
        = (some .notFound, [.resolveUsername])
    ∧ get_roblox_user_data gudEnvNotFound now0 = (none, [.resolveUsername]) :=
  C4_notfound_no_further_calls rlEnvNotFound gudEnvNotFound now0
    "SomeUser" rfl ⟨500, some (.obj [])⟩ rfl (Or.inl (by decide))
    ⟨200, some (.obj [("data", .arr [])])⟩ rfl
    (Or.inr ⟨.obj [("data", .arr [])], .arr [], rfl, rfl, rfl⟩)

/-- Environment in which the username resolves but the profile fetch
replies 500 (the avatar endpoint is healthy). -/
def gudEnvProfileDown : GUDEnv :=
  { resolveResp := some ⟨200,
      some (.obj [("data", .arr [.obj [("id", .num 1), ("name", .str "u")]])])⟩,
    profileResp := some ⟨500, some (.obj [])⟩,
    avatarResp := some ⟨200,
      some (.obj [("data", .arr [.obj [("imageUrl", .str "x")]])])⟩ }

/-- Counterexample to C1: it is not the case that every username that
resolves to a platform id yields a complete record under sub-fetch
failures — in `gudEnvProfileDown` the resolution succeeds, only the
profile sub-fetch fails, and the whole lookup is aborted (`None`). -/
theorem C1_counterexample :
    ¬ (∀ (env : GUDEnv) (now : PyDatetime),
        (gudResolve env.resolveResp).isSome = true →
        ∃ r, (get_roblox_user_data env now).1 = some r) := by
  intro h
  obtain ⟨r, hr⟩ := h gudEnvProfileDown now0 (by rfl)
  rw [show (get_roblox_user_data gudEnvProfileDown now0).1 = none from rfl] at hr
  exact Option.noConfusion hr

/-- C1 as amended: once the username resolves, if the profile fetch
replies 200 with a decoded dict, the avatar fetch returns a decoded body,
and the age computation does not raise, then the lookup returns a record
carrying every key of the aggregated-profile shape; an avatar body whose
`data` field is falsy is replaced by the empty-string sentinel rather than
aborting.  (A failed profile fetch, or a raising sub-fetch, aborts the
whole lookup — see the counterexample — and the friends-count field is a
fixed placeholder, never fetched.) -/
theorem C1_amended_complete_record
    (env : GUDEnv) (now : PyDatetime) (user uid : Json)
    (hres : gudResolve env.resolveResp = some user)
    (hid : user.key "id" = some uid)
    (pr : HttpResponse) (hpr : env.profileResp = some pr)
    (hst : pr.status = 200)
    (kvs : List (String × Json)) (hbody : pr.body = some (.obj kvs))
    (tj av : Json) (htj : callJson env.avatarResp = some tj)
    (hav : gudAvatar tj = some av)
    (age : Json)
    (hage : accountAgeField now "-" ((kvs.lookup "created").getD .null) = some age) :
    (∃ rec, (get_roblox_user_data env now).1 = some rec
      ∧ rec.map Prod.fst = gudKeys
      ∧ rec.lookup "avatarBustUrl" = some av
      ∧ rec.lookup "accountAge" = some age)
    ∧ (∀ d, tj.pyGet "data" = some d → d.truthy = false →
        gudAvatar tj = some (.str "")) := by
  constructor
  · refine ⟨gudRecord kvs uid av ((kvs.lookup "created").getD .null) age, ?_, rfl, rfl, rfl⟩
    simp only [get_roblox_user_data, hres, hid, hpr, hst, hbody, htj, hav, hage]
    simp
  · intro d hd ht
    unfold gudAvatar
    rw [hd]
    cases d with
    | arr xs =>
        cases xs with
        | nil => rfl
        | cons x xs => simp [Json.truthy] at ht
    | null => simp [Json.truthy, ht]
    | bool b => simp [Json.truthy] at ht ⊢; simp [ht]
    | num n => simp [Json.truthy] at ht ⊢; simp [ht]
    | str s => simp [Json.truthy] at ht ⊢; simp [ht]
    | obj kvs2 => simp [Json.truthy] at ht ⊢; simp [ht]

/-- Environment in which resolution and profile succeed while the avatar
endpoint replies with an error body carrying no `data` field. -/
def gudEnvAvatarDown : GUDEnv :=
  { resolveResp := some ⟨200,
      some (.obj [("data", .arr [.obj [("id", .num 1), ("name", .str "u")]])])⟩,
    profileResp := some ⟨200,
      some (.obj [("created", .str "2020-01-01T00:00:00.000Z"), ("name", .str "u")])⟩,
    avatarResp := some ⟨503, some (.obj [("errors", .arr [])])⟩ }

/-- Witness for the amended C1: with the avatar fetch failed (no `data`
in its body) the record is still returned, structurally complete, with the
empty-string sentinel in the avatar field. -/
theorem C1_witness :
    ∃ rec, (get_roblox_user_data gudEnvAvatarDown now0).1 = some rec
      ∧ rec.map Prod.fst = gudKeys
      ∧ rec.lookup "avatarBustUrl" = some (.str "") := by
  obtain ⟨⟨rec, h1, h2, h3, _⟩, _⟩ :=
    C1_amended_complete_record gudEnvAvatarDown now0
      (.obj [("id", .num 1), ("name", .str "u")]) (.num 1) rfl rfl
      ⟨200, some (.obj [("created", .str "2020-01-01T00:00:00.000Z"),
        ("name", .str "u")])⟩ rfl rfl
      [("created", .str "2020-01-01T00:00:00.000Z"), ("name", .str "u")] rfl
      (.obj [("errors", .arr [])]) (.str "") rfl rfl
      (.num 1461) (by rfl)
  exact ⟨rec, h1, h2, h3⟩

/-- Environment in which resolution and profile succeed but the
friends-count call raises (times out); both thumbnail endpoints are
healthy. -/
def rlEnvFriendsTimeout : RLEnv :=
  { resolveResp := some ⟨200,
      some (.obj [("data",
        .arr [.obj [("id", .num 1), ("name", .str "ExistingUser")]])])⟩,
    profileResp := some ⟨200,
      some (.obj [("created", .str "2020-01-01T00:00:00.000Z")])⟩,
    friendsResp := none,
    headshotResp := some ⟨200,
      some (.obj [("data", .arr [.obj [("imageUrl", .str "h")]])])⟩,
    bustResp := some ⟨200,
      some (.obj [("data", .arr [.obj [("imageUrl", .str "b")]])])⟩ }

/-- Counterexample to C6: it is not the case that a timed-out (raising)
friends-count call yields a record with the `"N/A"` sentinel — in
`rlEnvFriendsTimeout` the id resolution succeeds, only the friends-count
call raises, and the whole request aborts with an unhandled exception
(`none`) instead of returning a record. -/
theorem C6_counterexample :
    ¬ (∀ (env : RLEnv) (now : PyDatetime) (u : String),
        u.data.isEmpty = false →
        (∃ user, resolveStep env.resolveResp = .ok user) →
        env.friendsResp = none →
        ∃ r, (roblox_lookup u env now).1 = some (.record r)
          ∧ r.lookup "friends" = some (.str "N/A")) := by
  intro h
  obtain ⟨r, hr, -⟩ := h rlEnvFriendsTimeout now0 "ExistingUser" rfl
    ⟨.obj [("id", .num 1), ("name", .str "ExistingUser")], rfl⟩ rfl
  rw [show (roblox_lookup "ExistingUser" rlEnvFriendsTimeout now0).1 = none
    from rfl] at hr
  exact Option.noConfusion hr

/-- C6 as amended: when the friends-count call completes with a decoded
JSON body that lacks a `count` field, the record is returned with the
`"N/A"` sentinel in the friends field and the independently-sourced fields
(name, account age, both avatar urls) unaffected; but a friends-count call
that raises — a timeout in particular — aborts the whole lookup (see the
counterexample), the code setting no timeout and treating no raise. -/
theorem C6_amended_missing_count_sentinel
    (env : RLEnv) (now : PyDatetime) (u : String) (hu : u.data.isEmpty = false)
    (user uid nm : Json)
    (hres : resolveStep env.resolveResp = .ok user)
    (hid : user.key "id" = some uid) (hnm : user.key "name" = some nm)
    (age : Json) (hage : profileAgeStep env.profileResp now = some age)
    (fb : List (String × Json)) (hfb : callJson env.friendsResp = some (.obj fb))
    (hcount : fb.lookup "count" = none)
    (hs bs av avb : Json)
    (hhs : callJson env.headshotResp = some hs)
    (hbs : callJson env.bustResp = some bs)
    (hav : thumbUrl hs = some av) (havb : thumbUrl bs = some avb) :
    ∃ r, (roblox_lookup u env now).1 = some (.record r)
      ∧ r.lookup "friends" = some (.str "N/A")
      ∧ r.lookup "name" = some nm
      ∧ r.lookup "accountAge" = some age
      ∧ r.lookup "avatarUrl" = some av
      ∧ r.lookup "avatarBustUrl" = some avb := by
  have hfr : friendsStep env.friendsResp = some (.str "N/A") := by
    simp only [friendsStep, hfb, Option.bind_eq_bind, Option.some_bind,
      Json.pyGetD, hcount]
    rfl
  refine ⟨rlRecord nm age (.str "N/A") av avb, ?_, rfl, rfl, rfl, rfl, rfl⟩
  simp only [roblox_lookup, hu, Bool.false_eq_true, if_false, hres, hid, hage,
    hfr, hhs, hbs, hav, havb, hnm]

/-- Witness for the amended C6: a friends-count reply whose body is an
error object without `count` gives `"N/A"` while every other field keeps
its fetched value. -/
theorem C6_witness :
    ∃ r, (roblox_lookup "ExistingUser"
        { rlEnvFriendsTimeout with
          friendsResp := some ⟨429, some (.obj [("errors", .arr [])])⟩ }
        now0).1 = some (.record r)
      ∧ r.lookup "friends" = some (.str "N/A")
      ∧ r.lookup "accountAge" = some (.num 1461) :=
  match C6_amended_missing_count_sentinel
    { rlEnvFriendsTimeout with
      friendsResp := some ⟨429, some (.obj [("errors", .arr [])])⟩ }
    now0 "ExistingUser" rfl
    (.obj [("id", .num 1), ("name", .str "ExistingUser")]) (.num 1)
    (.str "ExistingUser") rfl rfl rfl (.num 1461) (by rfl)
    [("errors", .arr [])] rfl rfl
    (.obj [("data", .arr [.obj [("imageUrl", .str "h")]])])
    (.obj [("data", .arr [.obj [("imageUrl", .str "b")]])])
    (.str "h") (.str "b") rfl rfl rfl rfl with
  | ⟨r, h1, h2, _, h4, _, _⟩ => ⟨r, h1, h2, h4⟩

/-- C9: for every lookup that returns a record, the account-age field is a
non-negative integer number of whole days whenever the parsed creation
instant is aware and not after "now", and it is the sentinel (`"N/A"` in
`roblox_lookup`, `"-"` in `get_roblox_user_data`) whenever the creation
date is absent or unparseable. -/
theorem C9_account_age_nonneg_or_sentinel
    (env : RLEnv) (now : PyDatetime) (u : String) (hu : u.data.isEmpty = false)
    (user uid nm friends hs bs av avb acc created : Json)
    (hres : resolveStep env.resolveResp = .ok user)
    (hid : user.key "id" = some uid) (hnm : user.key "name" = some nm)
    (hacc : callJson env.profileResp = some acc)
    (hcr : acc.pyGet "created" = some created)
    (hfr : friendsStep env.friendsResp = some friends)
    (hhs : callJson env.headshotResp = some hs)
    (hbs : callJson env.bustResp = some bs)
    (hav : thumbUrl hs = some av) (havb : thumbUrl bs = some avb) :
    (parse_roblox_date created = none →
      ∃ r, (roblox_lookup u env now).1 = some (.record r)
        ∧ r.lookup "accountAge" = some (.str "N/A"))
    ∧ (∀ d offd offn, parse_roblox_date created = some d →
        d.tz = some offd → now.tz = some offn →
        d.naiveMicros - offd ≤ now.naiveMicros - offn →
        ∃ n : Int, 0 ≤ n
          ∧ ∃ r, (roblox_lookup u env now).1 = some (.record r)
            ∧ r.lookup "accountAge" = some (.num n))
    ∧ (∀ cr, parse_roblox_date cr = none →
        accountAgeField now "-" cr = some (.str "-")) := by
  refine ⟨?_, ?_, ?_⟩
  · intro hnone
    have hage : profileAgeStep env.profileResp now = some (.str "N/A") := by
      simp only [profileAgeStep, hacc, Option.bind_eq_bind, Option.some_bind,
        hcr, accountAgeField, hnone]
    refine ⟨rlRecord nm (.str "N/A") friends av avb, ?_, rfl⟩
    simp only [roblox_lookup, hu, Bool.false_eq_true, if_false, hres, hid,
      hage, hfr, hhs, hbs, hav, havb, hnm]
  · intro d offd offn hd htzd htzn hle
    refine ⟨tdDays ((now.naiveMicros - offn) - (d.naiveMicros - offd)),
      tdDays_nonneg _ (by omega), ?_⟩
    have hsub : pySub now d = some ((now.naiveMicros - offn) - (d.naiveMicros - offd)) := by
      simp only [pySub, htzd, htzn]
    have hage : profileAgeStep env.profileResp now =
        some (.num (tdDays ((now.naiveMicros - offn) - (d.naiveMicros - offd)))) := by
      simp only [profileAgeStep, hacc, Option.bind_eq_bind, Option.some_bind,
        hcr, accountAgeField, hd, hsub]
      rfl
    refine ⟨rlRecord nm
      (.num (tdDays ((now.naiveMicros - offn) - (d.naiveMicros - offd))))
      friends av avb, ?_, rfl⟩
    simp only [roblox_lookup, hu, Bool.false_eq_true, if_false, hres, hid,
      hage, hfr, hhs, hbs, hav, havb, hnm]
  · intro cr hnone
    simp only [accountAgeField, hnone]

/-- Witness for C9: a concrete healthy lookup yields a non-negative whole
number of days in `accountAge`. -/
theorem C9_witness :
    ∃ n : Int, 0 ≤ n
      ∧ ∃ r, (roblox_lookup "ExistingUser"
          { rlEnvFriendsTimeout with
            friendsResp := some ⟨200, some (.obj [("count", .num 42)])⟩ }
          now0).1 = some (.record r)
        ∧ r.lookup "accountAge" = some (.num n) :=
  (C9_account_age_nonneg_or_sentinel
    { rlEnvFriendsTimeout with
      friendsResp := some ⟨200, some (.obj [("count", .num 42)])⟩ }
    now0 "ExistingUser" rfl
    (.obj [("id", .num 1), ("name", .str "ExistingUser")]) (.num 1)
    (.str "ExistingUser") (.num 42)
    (.obj [("data", .arr [.obj [("imageUrl", .str "h")]])])
    (.obj [("data", .arr [.obj [("imageUrl", .str "b")]])])
    (.str "h") (.str "b")
    (.obj [("created", .str "2020-01-01T00:00:00.000Z")])
    (.str "2020-01-01T00:00:00.000Z")
    rfl rfl rfl rfl rfl rfl rfl rfl rfl rfl).2.1
    ⟨2020, 1, 1, 0, 0, 0, 0, some 0⟩ 0 0 (by rfl) rfl rfl (by decide)

/-! ## Theorems: the date normalizer -/

/-- C7: `parse_roblox_date` is total over all Python values (the two bare
`except Exception` clauses catch everything, which the embedding renders by
returning `None`): falsy input (null, the empty string) gives `None`; a
string accepted by neither the fixed-format parse nor the ISO fallback
gives `None`; a truthy non-string (whose attempted parses raise type and
attribute errors, both caught) gives `None`. -/
theorem C7_parse_total (j : Json) :
    (j.truthy = false → parse_roblox_date j = none)
    ∧ (∀ s : String, j = .str s → strptime_robloxZ s = none →
        fromisoformat? (String.mk (replaceZ s.data)) = none →
        parse_roblox_date j = none)
    ∧ ((∀ s : String, j ≠ .str s) → parse_roblox_date j = none) := by
  refine ⟨?_, ?_, ?_⟩
  · intro h
    simp [parse_roblox_date, h]
  · rintro s rfl h1 h2
    by_cases ht : Json.truthy (.str s) = false
    · simp [parse_roblox_date, ht]
    · simp only [parse_roblox_date, ht, Bool.false_eq_true, if_false, h1, h2]
      rfl
  · intro hns
    cases j with
    | str s => exact absurd rfl (hns s)
    | null => rfl
    | bool b => unfold parse_roblox_date; split <;> rfl
    | num n => unfold parse_roblox_date; split <;> rfl
    | arr xs => unfold parse_roblox_date; split <;> rfl
    | obj kvs => unfold parse_roblox_date; split <;> rfl

/-- Witness for C7: `None` on the empty string, on a malformed string, and
on a truthy non-string value. -/
theorem C7_witness :
    parse_roblox_date (.str "") = none
    ∧ parse_roblox_date (.str "not a date") = none
    ∧ parse_roblox_date (.num 1700000000) = none :=
  ⟨(C7_parse_total (.str "")).1 rfl,
   (C7_parse_total (.str "not a date")).2.1 "not a date" rfl rfl rfl,
   (C7_parse_total (.num 1700000000)).2.2 (fun _ h => Json.noConfusion h)⟩

/-- A digit character parses back to its digit. -/
theorem digitVal_digitChar : ∀ d, d < 10 → digitVal (digitChar d) = some d := by decide

/-- Digit characters satisfy `isDigit`. -/
theorem isDigit_digitChar : ∀ d, d < 10 → (digitChar d).isDigit = true := by decide

/-- Two-digit parse inverts two-digit zero-padded rendering. -/
theorem take2num_pad2 (v : Nat) (hv : v ≤ 99) (rest : List Char) :
    take2num (pad2 v ++ rest) = some (v, rest) := by
  have h1 := digitVal_digitChar (v / 10 % 10) (Nat.mod_lt _ (by omega))
  have h2 := digitVal_digitChar (v % 10) (Nat.mod_lt _ (by omega))
  have hval : v / 10 % 10 * 10 + v % 10 = v := by omega
  simp [pad2, take2num, h1, h2, hval]

/-- Four-digit parse inverts four-digit zero-padded rendering. -/
theorem take4num_pad4 (y : Nat) (hy : y ≤ 9999) (rest : List Char) :
    take4num (pad4 y ++ rest) = some (y, rest) := by
  have h1 := digitVal_digitChar (y / 1000 % 10) (Nat.mod_lt _ (by omega))
  have h2 := digitVal_digitChar (y / 100 % 10) (Nat.mod_lt _ (by omega))
  have h3 := digitVal_digitChar (y / 10 % 10) (Nat.mod_lt _ (by omega))
  have h4 := digitVal_digitChar (y % 10) (Nat.mod_lt _ (by omega))
  have hval : ((y / 1000 % 10 * 10 + y / 100 % 10) * 10 + y / 10 % 10) * 10 + y % 10 = y := by
    omega
  simp [pad4, take4num, h1, h2, h3, h4, hval]

/-- A two-digit `strptime` field consumes exactly a two-digit rendering
whose value its regex admits. -/
theorem takeField_pad2 (ok2 ok1 : Nat → Bool) (v : Nat) (hv : v ≤ 99)
    (hok : ok2 v = true) (c : Char) (rest : List Char) :
    takeField ok2 ok1 (pad2 v ++ c :: rest) = some (v, c :: rest) := by
  have h1 := digitVal_digitChar (v / 10 % 10) (Nat.mod_lt _ (by omega))
  have h2 := digitVal_digitChar (v % 10) (Nat.mod_lt _ (by omega))
  have hval : v / 10 % 10 * 10 + v % 10 = v := by omega
  simp [pad2, takeField, h1, h2, hval, hok]

/-- `int` of a two-digit rendering. -/
theorem digitsToNat_pad2 (v : Nat) (hv : v ≤ 99) :
    digitsToNat (pad2 v) = some v := by
  have h1 := digitVal_digitChar (v / 10 % 10) (Nat.mod_lt _ (by omega))
  have h2 := digitVal_digitChar (v % 10) (Nat.mod_lt _ (by omega))
  have hval : v / 10 % 10 * 10 + v % 10 = v := by omega
  simp [pad2, digitsToNat, h1, h2, hval]

/-- `int` of a four-digit rendering. -/
theorem digitsToNat_pad4 (y : Nat) (hy : y ≤ 9999) :
    digitsToNat (pad4 y) = some y := by
  have h1 := digitVal_digitChar (y / 1000 % 10) (Nat.mod_lt _ (by omega))
  have h2 := digitVal_digitChar (y / 100 % 10) (Nat.mod_lt _ (by omega))
  have h3 := digitVal_digitChar (y / 10 % 10) (Nat.mod_lt _ (by omega))
  have h4 := digitVal_digitChar (y % 10) (Nat.mod_lt _ (by omega))
  have hval : ((y / 1000 % 10 * 10 + y / 100 % 10) * 10 + y / 10 % 10) * 10 + y % 10 = y := by
    omega
  simp [pad4, digitsToNat, h1, h2, h3, h4, hval]

/-- `int` of a six-digit rendering. -/
theorem digitsToNat_pad6 (us : Nat) (h : us ≤ 999999) :
    digitsToNat (pad6 us) = some us := by
  have h1 := digitVal_digitChar (us / 100000 % 10) (Nat.mod_lt _ (by omega))
  have h2 := digitVal_digitChar (us / 10000 % 10) (Nat.mod_lt _ (by omega))
  have h3 := digitVal_digitChar (us / 1000 % 10) (Nat.mod_lt _ (by omega))
  have h4 := digitVal_digitChar (us / 100 % 10) (Nat.mod_lt _ (by omega))
  have h5 := digitVal_digitChar (us / 10 % 10) (Nat.mod_lt _ (by omega))
  have h6 := digitVal_digitChar (us % 10) (Nat.mod_lt _ (by omega))
  have hval : ((((us / 100000 % 10 * 10 + us / 10000 % 10) * 10 + us / 1000 % 10) * 10
      + us / 100 % 10) * 10 + us / 10 % 10) * 10 + us % 10 = us := by omega
  simp [pad6, digitsToNat, h1, h2, h3, h4, h5, h6, hval]

/-- A literal consumes itself. -/
theorem expectChar_cons (c : Char) (rest : List Char) :
    expectChar c (c :: rest) = some rest := by
  simp [expectChar]

/-- Every month has at most 31 days. -/
theorem daysInMonth_le (y m : Nat) : daysInMonth y m ≤ 31 := by
  unfold daysInMonth
  split
  · split <;> omega
  · split <;> omega

/-- Six-digit renderings consist of digits. -/
theorem pad6_all_digits (us : Nat) : ∀ c ∈ pad6 us, c.isDigit = true := by
  intro c hc
  simp only [pad6, List.mem_cons, List.not_mem_nil, or_false] at hc
  rcases hc with h | h | h | h | h | h <;> subst h <;>
    exact isDigit_digitChar _ (Nat.mod_lt _ (by omega))

/-- `takeWhile isDigit` splits a digit run followed by a non-digit. -/
theorem takeWhile_digits_append (l : List Char) (hl : ∀ c ∈ l, c.isDigit = true)
    (c0 : Char) (hc0 : c0.isDigit = false) (rest : List Char) :
    (l ++ c0 :: rest).takeWhile Char.isDigit = l
    ∧ (l ++ c0 :: rest).dropWhile Char.isDigit = c0 :: rest := by
  induction l with
  | nil => simp [List.takeWhile_cons, List.dropWhile_cons, hc0]
  | cons x xs ih =>
      have hx : x.isDigit = true := hl x (by simp)
      have ih' := ih (fun c hc => hl c (by simp [hc]))
      simp [List.takeWhile_cons, List.dropWhile_cons, hx, ih'.1, ih'.2]

/-- The characters of a string built from a character list. -/
theorem stringMk_data (l : List Char) : (String.mk l).data = l := rfl

set_option maxHeartbeats 1000000 in
/-- `strptime` with the fixed format inverts the fixed-width
fractional-seconds-with-Z rendering of a valid datetime. -/
theorem strptime_fmtFracZ (dt : PyDatetime) (hv : dt.valid = true) :
    strptime_robloxZ (fmtFracZ dt) =
      some ⟨dt.year, dt.month, dt.day, dt.hour, dt.minute, dt.second,
            dt.microsecond, none⟩ := by
  obtain ⟨y, mo, d, h, mi, s, us, tz⟩ := dt
  simp only [PyDatetime.valid, Bool.and_eq_true, decide_eq_true_eq] at hv
  obtain ⟨⟨⟨⟨⟨⟨⟨⟨⟨hy1, hy2⟩, hm1⟩, hm2⟩, hd1⟩, hd2⟩, hh⟩, hmi⟩, hs⟩, hus⟩ := hv
  have hd31 : d ≤ 31 := le_trans hd2 (daysInMonth_le y mo)
  have hokm : (fun v => decide (1 ≤ v) && decide (v ≤ 12)) mo = true := by
    show (decide (1 ≤ mo) && decide (mo ≤ 12)) = true
    simp [hm1, hm2]
  have hokd : (fun v => decide (1 ≤ v) && decide (v ≤ 31)) d = true := by
    show (decide (1 ≤ d) && decide (d ≤ 31)) = true
    simp [hd1, hd31]
  have hokh : (fun v => decide (v ≤ 23)) h = true := by
    show decide (h ≤ 23) = true
    simp [hh]
  have hokmi : (fun v => decide (v ≤ 59)) mi = true := by
    show decide (mi ≤ 59) = true
    simp [hmi]
  have hoks : (fun v => decide (v ≤ 61)) s = true := by
    show decide (s ≤ 61) = true
    simp
    omega
  have hfrac := takeWhile_digits_append (pad6 us) (pad6_all_digits us) 'Z'
    (by decide) []
  have hcond : (PyDatetime.valid ⟨y, mo, d, h, mi, s, us, none⟩
      && tzOk none) = true := by
    simp only [PyDatetime.valid, tzOk, Bool.and_eq_true, decide_eq_true_eq,
      Bool.and_true]
    exact ⟨⟨⟨⟨⟨⟨⟨⟨⟨hy1, hy2⟩, hm1⟩, hm2⟩, hd1⟩, hd2⟩, hh⟩, hmi⟩, hs⟩, hus⟩
  unfold strptime_robloxZ fmtFracZ
  simp only [stringMk_data, List.append_assoc, List.cons_append]
  rw [take4num_pad4 y hy2]
  simp only [Option.bind_eq_bind', Option.some_bind]
  rw [expectChar_cons]
  simp only [Option.bind_eq_bind', Option.some_bind]
  rw [takeField_pad2 (fun v => decide (1 ≤ v) && decide (v ≤ 12))
      (fun v => decide (1 ≤ v)) mo (by omega) hokm]
  simp only [Option.bind_eq_bind', Option.some_bind]
  rw [expectChar_cons]
  simp only [Option.bind_eq_bind', Option.some_bind]
  rw [takeField_pad2 (fun v => decide (1 ≤ v) && decide (v ≤ 31))
      (fun v => decide (1 ≤ v)) d (by omega) hokd]
  simp only [Option.bind_eq_bind', Option.some_bind]
  rw [expectChar_cons]
  simp only [Option.bind_eq_bind', Option.some_bind]
  rw [takeField_pad2 (fun v => decide (v ≤ 23)) (fun _ => true) h
      (by omega) hokh]
  simp only [Option.bind_eq_bind', Option.some_bind]
  rw [expectChar_cons]
  simp only [Option.bind_eq_bind', Option.some_bind]
  rw [takeField_pad2 (fun v => decide (v ≤ 59)) (fun _ => true) mi
      (by omega) hokmi]
  simp only [Option.bind_eq_bind', Option.some_bind]
  rw [expectChar_cons]
  simp only [Option.bind_eq_bind', Option.some_bind]
  rw [takeField_pad2 (fun v => decide (v ≤ 61)) (fun _ => true) s
      (by omega) hoks]
  simp only [Option.bind_eq_bind', Option.some_bind]
  rw [expectChar_cons]
  simp only [Option.bind_eq_bind', Option.some_bind]
  rw [hfrac.1, hfrac.2]
  have hlen : (pad6 us).length = 6 := by simp [pad6]
  simp only [hlen]
  simp [digitsToNat_pad6 us hus, mkDatetime?, hcond]
  simpa using hcond

/-- Two-digit renderings consist of digits. -/
theorem pad2_all_digits (n : Nat) : ∀ c ∈ pad2 n, c.isDigit = true := by
  intro c hc
  simp only [pad2, List.mem_cons, List.not_mem_nil, or_false] at hc
  rcases hc with h | h <;> subst h <;>
    exact isDigit_digitChar _ (Nat.mod_lt _ (by omega))

/-- A non-digit is not among digits. -/
theorem not_mem_of_digits (c : Char) (hc : c.isDigit = false) (l : List Char)
    (hl : ∀ x ∈ l, x.isDigit = true) : c ∉ l := by
  intro hm
  rw [hl c hm] at hc
  exact Bool.noConfusion hc

/-- The rendered time-of-day segment contains only digits, `:` and `.`. -/
theorem not_mem_time_list (c : Char) (hcd : c.isDigit = false)
    (hc1 : c ≠ ':') (hc2 : c ≠ '.') (h mi s us : Nat) :
    c ∉ pad2 h ++ ':' :: (pad2 mi ++ ':' :: (pad2 s ++ '.' :: pad6 us)) := by
  intro hm
  rcases List.mem_append.mp hm with hm | hm
  · exact not_mem_of_digits c hcd _ (pad2_all_digits h) hm
  · rcases List.mem_cons.mp hm with h' | hm
    · exact hc1 h'
    · rcases List.mem_append.mp hm with hm | hm
      · exact not_mem_of_digits c hcd _ (pad2_all_digits mi) hm
      · rcases List.mem_cons.mp hm with h' | hm
        · exact hc1 h'
        · rcases List.mem_append.mp hm with hm | hm
          · exact not_mem_of_digits c hcd _ (pad2_all_digits s) hm
          · rcases List.mem_cons.mp hm with h' | hm
            · exact hc2 h'
            · exact not_mem_of_digits c hcd _ (pad6_all_digits us) hm

/-- The rendered zone-offset segment contains only digits and `:`. -/
theorem not_mem_tz_list (c : Char) (hcd : c.isDigit = false) (hc1 : c ≠ ':')
    (a b : Nat) : c ∉ pad2 a ++ ':' :: pad2 b := by
  intro hm
  rcases List.mem_append.mp hm with hm | hm
  · exact not_mem_of_digits c hcd _ (pad2_all_digits a) hm
  · rcases List.mem_cons.mp hm with h' | hm
    · exact hc1 h'
    · exact not_mem_of_digits c hcd _ (pad2_all_digits b) hm

/-- `find` misses an absent character. -/
theorem findIdx?_of_not_mem (c : Char) (l : List Char) (h : c ∉ l) :
    findIdx? c l = none := by
  induction l with
  | nil => rfl
  | cons x xs ih =>
      simp only [List.mem_cons, not_or] at h
      rw [findIdx?, if_neg (fun hx => h.1 hx.symm), ih h.2]
      rfl

/-- `find` locates the first occurrence after a clean prefix. -/
theorem findIdx?_append_cons (c : Char) (l r : List Char) (h : c ∉ l) :
    findIdx? c (l ++ c :: r) = some l.length := by
  induction l with
  | nil => simp [findIdx?]
  | cons x xs ih =>
      simp only [List.mem_cons, not_or] at h
      rw [List.cons_append, findIdx?, if_neg (fun hx => h.1 hx.symm),
        ih h.2]
      rfl

/-- Dropping past a marker character leaves the suffix. -/
theorem drop_length_succ_append (l : List Char) (c : Char) (r : List Char) :
    (l ++ c :: r).drop (l.length + 1) = r := by
  induction l with
  | nil => rfl
  | cons x xs ih => simp [ih]

/-- Indexing at the marker position yields the marker. -/
theorem get?_length_append (l : List Char) (c : Char) (r : List Char) :
    (l ++ c :: r).get? l.length = some c := by
  induction l with
  | nil => rfl
  | cons x xs ih => simpa using ih

/-- Two-digit parse of a bare two-digit rendering. -/
theorem take2num_pad2_nil (v : Nat) (hv : v ≤ 99) :
    take2num (pad2 v) = some (v, []) := by
  have h1 := digitVal_digitChar (v / 10 % 10) (Nat.mod_lt _ (by omega))
  have h2 := digitVal_digitChar (v % 10) (Nat.mod_lt _ (by omega))
  have hval : v / 10 % 10 * 10 + v % 10 = v := by omega
  simp [pad2, take2num, h1, h2, hval]

/-- `_parse_hh_mm_ss_ff` inverts the rendered `HH:MM:SS.ffffff` form. -/
theorem hhmmssff_time (h mi s us : Nat) (hh : h ≤ 99) (hmi : mi ≤ 99)
    (hs : s ≤ 99) (hus : us ≤ 999999) :
    parse_hh_mm_ss_ff (pad2 h ++ ':' :: (pad2 mi ++ ':' :: (pad2 s ++ '.' :: pad6 us)))
      = some (h, mi, s, us) := by
  have hlen : (pad6 us).length = 6 := by simp [pad6]
  simp only [parse_hh_mm_ss_ff, take2num_pad2 h hh, Option.bind_eq_bind',
    Option.some_bind, take2num_pad2 mi hmi, take2num_pad2 s hs, hlen,
    digitsToNat_pad6 us hus]
  norm_num

/-- `_parse_hh_mm_ss_ff` inverts the rendered `HH:MM` zone form. -/
theorem hhmmssff_tz (a b : Nat) (ha : a ≤ 99) (hb : b ≤ 99) :
    parse_hh_mm_ss_ff (pad2 a ++ ':' :: pad2 b) = some (a, b, 0, 0) := by
  simp only [parse_hh_mm_ss_ff, take2num_pad2 a ha, Option.bind_eq_bind',
    Option.some_bind, take2num_pad2_nil b hb]
  rfl

/-- `_parse_isoformat_time` on a rendered time with a positive offset. -/
theorem parse_iso_time_plus (h mi s us oh om : Nat) (hh : h ≤ 99)
    (hmi : mi ≤ 99) (hs : s ≤ 99) (hus : us ≤ 999999) (hoh : oh ≤ 99)
    (hom : om ≤ 99) :
    parse_isoformat_time
        ((pad2 h ++ ':' :: (pad2 mi ++ ':' :: (pad2 s ++ '.' :: pad6 us)))
          ++ '+' :: (pad2 oh ++ ':' :: pad2 om))
      = some ((h, mi, s, us),
          some (((oh * 3600 + om * 60 : Nat) : Int) * 1000000)) := by
  set tl := pad2 h ++ ':' :: (pad2 mi ++ ':' :: (pad2 s ++ '.' :: pad6 us))
    with htl
  set tzc := pad2 oh ++ ':' :: pad2 om with htzc
  have hlen : (tl ++ '+' :: tzc).length = 21 := by
    simp [htl, htzc, pad2, pad6]
  have hminus : findIdx? '-' (tl ++ '+' :: tzc) = none := by
    apply findIdx?_of_not_mem
    intro hm
    rcases List.mem_append.mp hm with hm | hm
    · exact not_mem_time_list '-' (by decide) (by decide) (by decide)
        h mi s us hm
    · rcases List.mem_cons.mp hm with h' | hm
      · exact absurd h' (by decide)
      · exact not_mem_tz_list '-' (by decide) (by decide) oh om hm
  have hplus : findIdx? '+' (tl ++ '+' :: tzc) = some tl.length :=
    findIdx?_append_cons '+' tl tzc
      (not_mem_time_list '+' (by decide) (by decide) (by decide) h mi s us)
  have htzlen : tzc.length = 5 := by simp [htzc, pad2]
  unfold parse_isoformat_time
  rw [hlen, if_neg (by omega), hminus, hplus]
  simp only [List.take_left, drop_length_succ_append, get?_length_append,
    Option.bind_eq_bind', Option.some_bind, htzlen,
    hhmmssff_time h mi s us hh hmi hs hus, hhmmssff_tz oh om hoh hom]
  norm_num
  exact fun h' => absurd h' (by decide)

/-- `_parse_isoformat_time` on a rendered time with a negative offset. -/
theorem parse_iso_time_minus (h mi s us oh om : Nat) (hh : h ≤ 99)
    (hmi : mi ≤ 99) (hs : s ≤ 99) (hus : us ≤ 999999) (hoh : oh ≤ 99)
    (hom : om ≤ 99) :
    parse_isoformat_time
        ((pad2 h ++ ':' :: (pad2 mi ++ ':' :: (pad2 s ++ '.' :: pad6 us)))
          ++ '-' :: (pad2 oh ++ ':' :: pad2 om))
      = some ((h, mi, s, us),
          some (-(((oh * 3600 + om * 60 : Nat) : Int) * 1000000))) := by
  set tl := pad2 h ++ ':' :: (pad2 mi ++ ':' :: (pad2 s ++ '.' :: pad6 us))
    with htl
  set tzc := pad2 oh ++ ':' :: pad2 om with htzc
  have hlen : (tl ++ '-' :: tzc).length = 21 := by
    simp [htl, htzc, pad2, pad6]
  have hminus : findIdx? '-' (tl ++ '-' :: tzc) = some tl.length :=
    findIdx?_append_cons '-' tl tzc
      (not_mem_time_list '-' (by decide) (by decide) (by decide) h mi s us)
  have htzlen : tzc.length = 5 := by simp [htzc, pad2]
  unfold parse_isoformat_time
  rw [hlen, if_neg (by omega), hminus]
  simp only [List.take_left, drop_length_succ_append, get?_length_append,
    Option.bind_eq_bind', Option.some_bind, htzlen,
    hhmmssff_time h mi s us hh hmi hs hus, hhmmssff_tz oh om hoh hom]
  norm_num

/-- `replace("Z", ...)` is the identity on strings without `Z`. -/
theorem replaceZ_of_not_mem (l : List Char) (h : 'Z' ∉ l) : replaceZ l = l := by
  induction l with
  | nil => rfl
  | cons x xs ih =>
      simp only [List.mem_cons, not_or] at h
      rw [replaceZ, if_neg (fun hx => h.1 hx.symm), ih h.2]

/-- The rendered date prefix in explicit character form. -/
theorem date_prefix_split (y mo d : Nat) (T : List Char) :
    pad4 y ++ '-' :: (pad2 mo ++ '-' :: (pad2 d ++ 'T' :: T))
      = digitChar (y / 1000 % 10) :: digitChar (y / 100 % 10)
        :: digitChar (y / 10 % 10) :: digitChar (y % 10) :: '-'
        :: digitChar (mo / 10 % 10) :: digitChar (mo % 10) :: '-'
        :: digitChar (d / 10 % 10) :: digitChar (d % 10) :: 'T' :: T := by
  simp [pad4, pad2, List.cons_append]

/-- `fromisoformat` inverts the extended ISO-8601 rendering with a
numeric zone offset. -/
theorem fromiso_roundtrip (y mo d h mi s us oh om : Nat) (sgn : Char)
    (hy2 : y ≤ 9999) (hm99 : mo ≤ 99) (hd99 : d ≤ 99) (hh : h ≤ 99)
    (hmi : mi ≤ 99) (hs : s ≤ 99) (hus : us ≤ 999999) (hoh : oh ≤ 99)
    (hom : om ≤ 99)
    (hsgn : sgn = '+' ∨ sgn = '-')
    (off : Int)
    (hoff : (sgn = '+' → off = ((oh * 3600 + om * 60 : Nat) : Int) * 1000000)
      ∧ (sgn = '-' → off = -(((oh * 3600 + om * 60 : Nat) : Int) * 1000000)))
    (hcond : (PyDatetime.valid ⟨y, mo, d, h, mi, s, us, some off⟩
      && tzOk (some off)) = true) :
    fromisoformat? (String.mk (pad4 y ++ '-' :: (pad2 mo ++ '-' :: (pad2 d
        ++ 'T' :: ((pad2 h ++ ':' :: (pad2 mi ++ ':' :: (pad2 s
          ++ '.' :: pad6 us))) ++ sgn :: (pad2 oh ++ ':' :: pad2 om))))))
      = some ⟨y, mo, d, h, mi, s, us, some off⟩ := by
  have hy4 : digitsToNat [digitChar (y / 1000 % 10), digitChar (y / 100 % 10),
      digitChar (y / 10 % 10), digitChar (y % 10)] = some y :=
    digitsToNat_pad4 y hy2
  have hmo2 : digitsToNat [digitChar (mo / 10 % 10), digitChar (mo % 10)]
      = some mo := digitsToNat_pad2 mo hm99
  have hd2 : digitsToNat [digitChar (d / 10 % 10), digitChar (d % 10)]
      = some d := digitsToNat_pad2 d hd99
  rw [date_prefix_split]
  rcases hsgn with rfl | rfl
  · have htime := parse_iso_time_plus h mi s us oh om hh hmi hs hus hoh hom
    have hoffv := hoff.1 rfl
    subst hoffv
    simp only [fromisoformat?, stringMk_data, hy4, hmo2, hd2,
      Option.bind_eq_bind', Option.some_bind]
    rw [htime]
    simp only [Option.some_bind, mkDatetime?, hcond, if_true]
  · have htime := parse_iso_time_minus h mi s us oh om hh hmi hs hus hoh hom
    have hoffv := hoff.2 rfl
    subst hoffv
    simp only [fromisoformat?, stringMk_data, hy4, hmo2, hd2,
      Option.bind_eq_bind', Option.some_bind]
    rw [htime]
    simp only [Option.some_bind, mkDatetime?, hcond, if_true]

/-- Four-digit renderings consist of digits. -/
theorem pad4_all_digits (n : Nat) : ∀ c ∈ pad4 n, c.isDigit = true := by
  intro c hc
  simp only [pad4, List.mem_cons, List.not_mem_nil, or_false] at hc
  rcases hc with h | h | h | h <;> subst h <;>
    exact isDigit_digitChar _ (Nat.mod_lt _ (by omega))

set_option maxHeartbeats 1000000 in
/-- `strptime` with the fixed `...Z` format rejects the ISO rendering
with a numeric offset (the offset sign is not `Z`). -/
theorem strptime_iso_none (y mo d h mi s us oh om : Nat) (sgn : Char)
    (hsgn : sgn = '+' ∨ sgn = '-')
    (hy2 : y ≤ 9999) (hm1 : 1 ≤ mo) (hm2 : mo ≤ 12) (hd1 : 1 ≤ d)
    (hd31 : d ≤ 31) (hh : h ≤ 23) (hmi : mi ≤ 59) (hs : s ≤ 61) :
    strptime_robloxZ (String.mk (pad4 y ++ '-' :: (pad2 mo ++ '-' :: (pad2 d
        ++ 'T' :: ((pad2 h ++ ':' :: (pad2 mi ++ ':' :: (pad2 s
          ++ '.' :: pad6 us))) ++ sgn :: (pad2 oh ++ ':' :: pad2 om))))))
      = none := by
  have hokm : (fun v => decide (1 ≤ v) && decide (v ≤ 12)) mo = true := by
    show (decide (1 ≤ mo) && decide (mo ≤ 12)) = true
    simp [hm1, hm2]
  have hokd : (fun v => decide (1 ≤ v) && decide (v ≤ 31)) d = true := by
    show (decide (1 ≤ d) && decide (d ≤ 31)) = true
    simp [hd1, hd31]
  have hokh : (fun v => decide (v ≤ 23)) h = true := by
    show decide (h ≤ 23) = true
    simp [hh]
  have hokmi : (fun v => decide (v ≤ 59)) mi = true := by
    show decide (mi ≤ 59) = true
    simp [hmi]
  have hoks : (fun v => decide (v ≤ 61)) s = true := by
    show decide (s ≤ 61) = true
    simp [hs]
  have hsgnd : sgn.isDigit = false := by
    rcases hsgn with rfl | rfl <;> decide
  have hfrac := takeWhile_digits_append (pad6 us) (pad6_all_digits us) sgn
    hsgnd (pad2 oh ++ ':' :: pad2 om)
  unfold strptime_robloxZ
  simp only [stringMk_data, List.append_assoc, List.cons_append]
  rw [take4num_pad4 y hy2]
  simp only [Option.bind_eq_bind', Option.some_bind]
  rw [expectChar_cons]
  simp only [Option.bind_eq_bind', Option.some_bind]
  rw [takeField_pad2 (fun v => decide (1 ≤ v) && decide (v ≤ 12))
      (fun v => decide (1 ≤ v)) mo (by omega) hokm]
  simp only [Option.bind_eq_bind', Option.some_bind]
  rw [expectChar_cons]
  simp only [Option.bind_eq_bind', Option.some_bind]
  rw [takeField_pad2 (fun v => decide (1 ≤ v) && decide (v ≤ 31))
      (fun v => decide (1 ≤ v)) d (by omega) hokd]
  simp only [Option.bind_eq_bind', Option.some_bind]
  rw [expectChar_cons]
  simp only [Option.bind_eq_bind', Option.some_bind]
  rw [takeField_pad2 (fun v => decide (v ≤ 23)) (fun _ => true) h
      (by omega) hokh]
  simp only [Option.bind_eq_bind', Option.some_bind]
  rw [expectChar_cons]
  simp only [Option.bind_eq_bind', Option.some_bind]
  rw [takeField_pad2 (fun v => decide (v ≤ 59)) (fun _ => true) mi
      (by omega) hokmi]
  simp only [Option.bind_eq_bind', Option.some_bind]
  rw [expectChar_cons]
  simp only [Option.bind_eq_bind', Option.some_bind]
  rw [takeField_pad2 (fun v => decide (v ≤ 61)) (fun _ => true) s
      (by omega) hoks]
  simp only [Option.bind_eq_bind', Option.some_bind]
  rw [expectChar_cons]
  simp only [Option.bind_eq_bind', Option.some_bind]
  rw [hfrac.1, hfrac.2]
  rcases hsgn with rfl | rfl <;> simp

/-- The ISO rendering with a numeric offset contains no `Z`. -/
theorem noZ_iso_list (y mo d h mi s us oh om : Nat) (sgn : Char)
    (hsgn : sgn = '+' ∨ sgn = '-') :
    'Z' ∉ pad4 y ++ '-' :: (pad2 mo ++ '-' :: (pad2 d
        ++ 'T' :: ((pad2 h ++ ':' :: (pad2 mi ++ ':' :: (pad2 s
          ++ '.' :: pad6 us))) ++ sgn :: (pad2 oh ++ ':' :: pad2 om)))) := by
  intro hm
  rcases List.mem_append.mp hm with hm | hm
  · exact not_mem_of_digits 'Z' (by decide) _ (pad4_all_digits y) hm
  · rcases List.mem_cons.mp hm with h' | hm
    · exact absurd h' (by decide)
    · rcases List.mem_append.mp hm with hm | hm
      · exact not_mem_of_digits 'Z' (by decide) _ (pad2_all_digits mo) hm
      · rcases List.mem_cons.mp hm with h' | hm
        · exact absurd h' (by decide)
        · rcases List.mem_append.mp hm with hm | hm
          · exact not_mem_of_digits 'Z' (by decide) _ (pad2_all_digits d) hm
          · rcases List.mem_cons.mp hm with h' | hm
            · exact absurd h' (by decide)
            · rcases List.mem_append.mp hm with hm | hm
              · exact not_mem_time_list 'Z' (by decide) (by decide) (by decide)
                  h mi s us hm
              · rcases List.mem_cons.mp hm with h' | hm
                · rcases hsgn with rfl | rfl <;> exact absurd h' (by decide)
                · exact not_mem_tz_list 'Z' (by decide) (by decide) oh om hm

/-- The fixed-width rendering is a non-empty (truthy) string. -/
theorem fmtFracZ_truthy (dt : PyDatetime) :
    (Json.str (fmtFracZ dt)).truthy = true := by
  obtain ⟨y, mo, d, h, mi, s, us, tz⟩ := dt
  simp [Json.truthy, fmtFracZ, stringMk_data, pad4]

/-- Round trip of encoding 1 through the full normalizer. -/
theorem parse_fmtFracZ (dt : PyDatetime) (hv : dt.valid = true)
    (h0 : dt.tz = some 0) :
    parse_roblox_date (.str (fmtFracZ dt)) = some dt := by
  have hs := strptime_fmtFracZ dt hv
  rw [parse_roblox_date, if_neg (by simp [fmtFracZ_truthy dt]), hs]
  obtain ⟨y, mo, d, h, mi, s, us, tz⟩ := dt
  simp only [PyDatetime.tz] at h0
  subst h0
  rfl

set_option maxHeartbeats 1000000 in
/-- Round trip of encoding 2 through the full normalizer: an aware valid
datetime with a whole-minute offset within a day survives
`parse_roblox_date` after ISO rendering. -/
theorem parse_fmtIsoOffset (dt : PyDatetime) (hv : dt.valid = true)
    (k : Int) (htz : dt.tz = some (k * 60000000)) (hk1 : -1440 < k)
    (hk2 : k < 1440) :
    parse_roblox_date (.str (fmtIsoOffset dt)) = some dt := by
  obtain ⟨y, mo, d, h, mi, s, us, tz⟩ := dt
  simp only [PyDatetime.tz] at htz
  subst htz
  have hvp := hv
  simp only [PyDatetime.valid, Bool.and_eq_true, decide_eq_true_eq] at hvp
  obtain ⟨⟨⟨⟨⟨⟨⟨⟨⟨hy1, hy2⟩, hm1⟩, hm2⟩, hd1⟩, hd2⟩, hh⟩, hmi⟩, hs⟩, hus⟩ := hvp
  have hd31 : d ≤ 31 := le_trans hd2 (daysInMonth_le y mo)
  have hmins : (k * 60000000).natAbs / 60000000 = k.natAbs := by
    omega
  have hkabs : k.natAbs ≤ 1439 := by omega
  have hoh : k.natAbs / 60 ≤ 99 := by omega
  have hom : k.natAbs % 60 ≤ 99 := by omega
  have htzok : tzOk (some (k * 60000000)) = true := by
    simp only [tzOk, Bool.and_eq_true, decide_eq_true_eq]
    constructor <;> omega
  have hcond : (PyDatetime.valid ⟨y, mo, d, h, mi, s, us,
      some (k * 60000000)⟩ && tzOk (some (k * 60000000))) = true := by
    rw [hv, htzok]
    rfl
  have hfmt : fmtIsoOffset ⟨y, mo, d, h, mi, s, us, some (k * 60000000)⟩
      = String.mk (pad4 y ++ '-' :: (pad2 mo ++ '-' :: (pad2 d
        ++ 'T' :: ((pad2 h ++ ':' :: (pad2 mi ++ ':' :: (pad2 s
          ++ '.' :: pad6 us))) ++ (if (0 : Int) ≤ k * 60000000 then '+' else '-')
            :: (pad2 (k.natAbs / 60) ++ ':' :: pad2 (k.natAbs % 60)))))) := by
    simp only [fmtIsoOffset, Option.getD_some, hmins, List.append_assoc,
      List.cons_append]
  rw [hfmt]
  by_cases hsign : (0 : Int) ≤ k * 60000000
  · rw [if_pos hsign]
    have hoffp : ((( (k.natAbs / 60) * 3600 + (k.natAbs % 60) * 60 : Nat) : Int)
        * 1000000) = k * 60000000 := by
      omega
    rw [parse_roblox_date,
      if_neg (by simp [Json.truthy, stringMk_data, pad4]),
      strptime_iso_none y mo d h mi s us (k.natAbs / 60) (k.natAbs % 60) '+'
        (Or.inl rfl) hy2 hm1 hm2 hd1 hd31 hh hmi (by omega),
      stringMk_data,
      replaceZ_of_not_mem _ (noZ_iso_list y mo d h mi s us
        (k.natAbs / 60) (k.natAbs % 60) '+' (Or.inl rfl)),
      fromiso_roundtrip y mo d h mi s us (k.natAbs / 60) (k.natAbs % 60) '+'
        hy2 (by omega) (by omega) (by omega) (by omega) (by omega) hus hoh hom
        (Or.inl rfl) (k * 60000000)
        ⟨fun _ => hoffp.symm, fun habs => absurd habs (by decide)⟩ hcond]
  · rw [if_neg hsign]
    have hoffm : (-((( (k.natAbs / 60) * 3600 + (k.natAbs % 60) * 60 : Nat) : Int)
        * 1000000)) = k * 60000000 := by
      omega
    rw [parse_roblox_date,
      if_neg (by simp [Json.truthy, stringMk_data, pad4]),
      strptime_iso_none y mo d h mi s us (k.natAbs / 60) (k.natAbs % 60) '-'
        (Or.inr rfl) hy2 hm1 hm2 hd1 hd31 hh hmi (by omega),
      stringMk_data,
      replaceZ_of_not_mem _ (noZ_iso_list y mo d h mi s us
        (k.natAbs / 60) (k.natAbs % 60) '-' (Or.inr rfl)),
      fromiso_roundtrip y mo d h mi s us (k.natAbs / 60) (k.natAbs % 60) '-'
        hy2 (by omega) (by omega) (by omega) (by omega) (by omega) hus hoh hom
        (Or.inr rfl) (k * 60000000)
        ⟨fun habs => absurd habs (by decide), fun _ => hoffm.symm⟩ hcond]

/-- Counterexample to C8: not every non-null result of the normalizer is
an instant in UTC — the zone-less ISO string `2020-01-01T05:30:00`
parses, via the `fromisoformat` fallback, to a naive datetime carrying no
zone at all (and hence no instant). -/
theorem C8_counterexample :
    ¬ (∀ (j : Json) (dt : PyDatetime), parse_roblox_date j = some dt →
        ∃ off, dt.tz = some off) := by
  intro hcl
  obtain ⟨off, hoff⟩ := hcl (.str "2020-01-01T05:30:00")
    ⟨2020, 1, 1, 5, 30, 0, 0, none⟩ (by rfl)
  exact Option.noConfusion hoff

/-- C8 as amended: formatting a valid instant in either supported
encoding (fixed-width fractional-seconds-with-Z for a UTC instant;
extended ISO-8601 with a whole-minute numeric offset within a day) and
normalizing returns the very same aware datetime — hence the same
instant; but a non-null result is an instant only when the input carried
zone information (see the counterexample). -/
theorem C8_roundtrip_amended (dt : PyDatetime) (hv : dt.valid = true) :
    (dt.tz = some 0 → parse_roblox_date (.str (fmtFracZ dt)) = some dt)
    ∧ (∀ k : Int, dt.tz = some (k * 60000000) → -1440 < k → k < 1440 →
        parse_roblox_date (.str (fmtIsoOffset dt)) = some dt) :=
  ⟨fun h0 => parse_fmtFracZ dt hv h0,
   fun k htz hk1 hk2 => parse_fmtIsoOffset dt hv k htz hk1 hk2⟩

/-- Witness for the amended C8 at two concrete datetimes, one per
encoding. -/
theorem C8_witness :
    parse_roblox_date (.str (fmtFracZ ⟨2021, 6, 15, 12, 30, 45, 123456, some 0⟩))
        = some ⟨2021, 6, 15, 12, 30, 45, 123456, some 0⟩
    ∧ parse_roblox_date (.str (fmtIsoOffset
        ⟨2021, 6, 15, 12, 30, 45, 123456, some (330 * 60000000)⟩))
        = some ⟨2021, 6, 15, 12, 30, 45, 123456, some (330 * 60000000)⟩ :=
  ⟨(C8_roundtrip_amended ⟨2021, 6, 15, 12, 30, 45, 123456, some 0⟩
      (by decide)).1 rfl,
   (C8_roundtrip_amended ⟨2021, 6, 15, 12, 30, 45, 123456,
      some (330 * 60000000)⟩ (by decide)).2 330 rfl (by decide) (by decide)⟩
